import Mathlib

/-!
Shallow embedding of the master work-schedule subsystem of the Diploma
auto-service repository (src/core/models.py: `WorkSchedule`,
`get_master_schedule_for_date`, `is_master_working_at_datetime`;
src/core/forms.py: `WorkScheduleForm.clean`; src/core/views.py: the
order-assignment conflict scan).

Modelling conventions:
- A calendar date is an integer day number (`Date := Int`), with day 0 a
  Monday, so Python's `date.isoweekday()` becomes `d % 7 + 1` (values 1..7,
  1 = Monday). Date comparison is integer comparison and
  `timedelta(days = n)` is `+ n`.
- A time of day is a number of minutes since midnight (`Nat`); Python's
  `time` comparison is the numeric order. The model's duration check
  computes `(end - start).seconds / 3600` hours; at minute granularity
  `duration > 12 hours` is `minutes > 720` and `< 1 hour` is `minutes < 60`
  (float division by 3600 is order-faithful at this scale).
- Django querysets over a table become explicit `List` arguments (`db`),
  filters become `List.filter`, `.first()` takes the head of the filtered
  list, and `exclude(pk=...)` follows SQL NULL semantics (a NULL pk never
  equals a value).
- `raise ValidationError` becomes `Except CleanError Unit`; the overlap
  error carries the conflicting schedule's date range, as the Python
  message string does.
-/

namespace Diploma

abbrev Date := Int

/-- Python `date.isoweekday()`: 1 = Monday .. 7 = Sunday, with day 0 a Monday. -/
def isoweekday (d : Date) : Int := d % 7 + 1

/-- `WorkSchedule.SCHEDULE_TYPE_CHOICES`: `'weekly' | 'monthly' | 'custom'`. -/
inductive ScheduleType where
  | weekly
  | monthly
  | custom
deriving DecidableEq, Repr

/-- The `WorkSchedule` model's fields used by the availability engine.
`pk` is `none` for an unsaved instance; rows in a `db` list carry `some pk`.
`custom_days` is a `CharField` (blank allowed, never NULL), hence `String`. -/
structure WorkSchedule where
  pk : Option Nat
  master : Nat
  schedule_type : ScheduleType
  start_date : Date
  end_date : Option Date
  custom_days : String
  start_time : Nat
  end_time : Nat
  is_active : Bool
deriving DecidableEq, Repr

/-- Python `str.strip()` on a token (drops leading/trailing whitespace). -/
def stripChars (cs : List Char) : List Char :=
  ((cs.dropWhile Char.isWhitespace).reverse.dropWhile Char.isWhitespace).reverse

/-- Python `str.split(',')`: splits at every comma; `"".split(',') == ['']`. -/
def splitComma : List Char → List Char → List (List Char)
  | [], acc => [acc.reverse]
  | c :: rest, acc =>
      if c = ',' then acc.reverse :: splitComma rest []
      else splitComma rest (c :: acc)

/-- Digit run of a Python `int` literal; fails on any non-digit. -/
def parseDigits : List Char → Nat → Option Nat
  | [], acc => some acc
  | c :: cs, acc =>
      if c.isDigit then parseDigits cs (acc * 10 + (c.toNat - 48))
      else none

/-- Python `int(token)` for an already-stripped token: an optional sign
followed by at least one digit; anything else raises `ValueError` (`none`).
(Python additionally allows `_` digit grouping, which no schedule data uses.) -/
def pyInt : List Char → Option Int
  | [] => none
  | '+' :: cs => if cs = [] then none else (parseDigits cs 0).map Int.ofNat
  | '-' :: cs => if cs = [] then none else (parseDigits cs 0).map (fun n => -(n : Int))
  | cs => (parseDigits cs 0).map Int.ofNat

/-- `[int(day.strip()) for day in self.custom_days.split(',')]`; `none` is the
`ValueError` outcome (some element fails to parse). -/
def parseCustomDays (s : String) : Option (List Int) :=
  (splitComma s.data []).mapM (fun tok => pyInt (stripChars tok))

/-- `WorkSchedule.get_working_days` (src/core/models.py): weekly → Mon..Fri;
custom with a non-empty `custom_days` → the parsed list, or `[]` on
`ValueError`; every other case (monthly, or custom with empty `custom_days`)
→ all seven days. -/
def get_working_days (s : WorkSchedule) : List Int :=
  match s.schedule_type with
  | .weekly => [1, 2, 3, 4, 5]
  | .custom =>
      if s.custom_days = "" then [1, 2, 3, 4, 5, 6, 7]
      else
        match parseCustomDays s.custom_days with
        | some days => days
        | none => []
  | .monthly => [1, 2, 3, 4, 5, 6, 7]

/-- `WorkSchedule.is_working_day`. -/
def is_working_day (s : WorkSchedule) (d : Date) : Bool :=
  if !s.is_active then false
  else if d < s.start_date then false
  else if (match s.end_date with | some e => decide (d > e) | none => false) then false
  else decide (isoweekday d ∈ get_working_days s)

/-- `WorkSchedule.is_working_at_time`; the datetime is split into its date
and its time-of-day in minutes. -/
def is_working_at_time (s : WorkSchedule) (d : Date) (t : Nat) : Bool :=
  if !is_working_day s d then false
  else decide (s.start_time ≤ t ∧ t ≤ s.end_time)

/-- `WorkSchedule._periods_overlap`. -/
def periods_overlap (s o : WorkSchedule) : Bool :=
  match s.end_date with
  | none => decide (o.start_date ≥ s.start_date)
  | some se =>
      match o.end_date with
      | none => decide (s.start_date ≤ o.start_date)
      | some oe => !(decide (se < o.start_date) || decide (oe < s.start_date))

/-- `WorkSchedule._days_overlap`: the two working-day sets intersect. -/
def days_overlap (s o : WorkSchedule) : Bool :=
  (get_working_days s).any (fun d => (get_working_days o).contains d)

/-- `WorkSchedule._time_overlap`. -/
def time_overlap (s o : WorkSchedule) : Bool :=
  !(decide (s.end_time ≤ o.start_time) || decide (o.end_time ≤ s.start_time))

/-- SQL semantics of Django's `exclude(pk=self.pk)` comparison: a filter
`pk = v` matches a row only when both sides are equal values (`pk = NULL`
matches rows whose pk IS NULL under Django's translation). -/
def pkFilterMatches : Option Nat → Option Nat → Bool
  | none, rowPk => rowPk = none
  | some p, rowPk => rowPk = some p

/-- `WorkSchedule.get_conflicts`: the queryset filters to the same master's
other active schedules; the loop keeps those overlapping in period, days
and time. `db` stands for the WorkSchedule table. -/
def get_conflicts (s : WorkSchedule) (db : List WorkSchedule) : List WorkSchedule :=
  let overlapping := db.filter (fun o =>
    decide (o.master = s.master) && o.is_active && !(pkFilterMatches s.pk o.pk))
  overlapping.filter (fun o => periods_overlap s o && days_overlap s o && time_overlap s o)

/-- The `ValidationError`s raised by `WorkSchedule.clean`; `activeOverlap`
carries the conflicting schedule's date range, as the message string does
(`end_date = none` prints as "бессрочно"/open-ended). -/
inductive CleanError where
  | startNotBeforeEnd
  | dayTooLong
  | dayTooShort
  | startDateAfterEnd
  | periodTooLong
  | startDateInPast
  | badCustomDayRange
  | noCustomDays
  | customDaysNotNumbers
  | activeOverlap (cstart : Date) (cend : Option Date)
deriving DecidableEq, Repr

/-- First block of `WorkSchedule.clean`: start before end, then the daily
duration bound of 12 hours (720 min) above and 1 hour (60 min) below.
(`start_time` and `end_time` are non-null `TimeField`s, always truthy.) -/
def clean_time_check (s : WorkSchedule) : Except CleanError Unit :=
  if s.start_time ≥ s.end_time then .error .startNotBeforeEnd
  else
    let work_minutes := s.end_time - s.start_time
    if work_minutes > 720 then .error .dayTooLong
    else if work_minutes < 60 then .error .dayTooShort
    else .ok ()

/-- Second block of `WorkSchedule.clean`: date order and the 365-day cap,
only when both dates are present. -/
def clean_date_check (s : WorkSchedule) : Except CleanError Unit :=
  match s.end_date with
  | none => .ok ()
  | some e =>
      if s.start_date > e then .error .startDateAfterEnd
      else if e - s.start_date > 365 then .error .periodTooLong
      else .ok ()

/-- Third block of `WorkSchedule.clean`: a new schedule (`pk` unset) may not
start in the past. -/
def clean_past_check (s : WorkSchedule) (today : Date) : Except CleanError Unit :=
  if s.pk = none ∧ s.start_date < today then .error .startDateInPast
  else .ok ()

/-- Fourth block of `WorkSchedule.clean`: for a custom schedule with a
non-empty `custom_days`, parse the list (`ValueError` → "numbers separated
by commas"), then require every day in 1..7, then non-emptiness. -/
def clean_custom_days_check (s : WorkSchedule) : Except CleanError Unit :=
  if s.schedule_type = ScheduleType.custom ∧ s.custom_days ≠ "" then
    match parseCustomDays s.custom_days with
    | none => .error .customDaysNotNumbers
    | some days =>
        if ¬ (∀ d ∈ days, 1 ≤ d ∧ d ≤ 7) then .error .badCustomDayRange
        else if days = [] then .error .noCustomDays
        else .ok ()
  else .ok ()

/-- Last block of `WorkSchedule.clean`: for an active schedule, the queryset
keeps the master's active schedules with
`start_date <= (self.end_date or today + 365)` and
`end_date >= self.start_date` (SQL: a NULL `end_date` never satisfies the
`gte`), excludes `self.pk` when saved, and rejects with the first match's
date range. (`master_id` is a non-null FK, so the `self.master_id` guard is
always true.) `overlap_qs_filter` is the queryset's WHERE clause. -/
def overlap_qs_filter (s : WorkSchedule) (today : Date) (o : WorkSchedule) : Bool :=
  decide (o.master = s.master) && o.is_active &&
  decide (o.start_date ≤ (match s.end_date with | some e => e | none => today + 365)) &&
  (match o.end_date with | some oe => decide (oe ≥ s.start_date) | none => false) &&
  (match s.pk with | some _ => !(pkFilterMatches s.pk o.pk) | none => true)

def clean_overlap_check (s : WorkSchedule) (db : List WorkSchedule)
    (today : Date) : Except CleanError Unit :=
  if s.is_active then
    match db.filter (overlap_qs_filter s today) with
    | [] => .ok ()
    | c :: _ => .error (.activeOverlap c.start_date c.end_date)
  else .ok ()

/-- `WorkSchedule.clean` in source order; the first `raise` wins. -/
def clean (s : WorkSchedule) (db : List WorkSchedule) (today : Date) :
    Except CleanError Unit := do
  clean_time_check s
  clean_date_check s
  clean_past_check s today
  clean_custom_days_check s
  clean_overlap_check s db today

/-- Outcome of the custom-days section of `WorkScheduleForm.clean`
(src/core/forms.py). `restDayFieldError` is the
`add_error('custom_days', ...)` branch for a 7-entry list: in Django a field
error recorded by `add_error` makes `form.is_valid()` false, so the
create/edit views (which save only under `form.is_valid()`) reject the
schedule — it is a blocking error despite its recommendation wording. -/
inductive FormCustomDaysOutcome where
  | accepted
  | rejectedBadDays
  | rejectedNoDays
  | restDayFieldError
deriving DecidableEq, Repr

/-- Custom-days section of `WorkScheduleForm.clean`: parse failures and
out-of-range values both raise `ValueError`, caught as "numbers from 1 to
7"; an empty parse raises; a 7-entry list gets the rest-day field error. -/
def form_custom_days_check (schedule_type : ScheduleType) (custom_days : String) :
    FormCustomDaysOutcome :=
  if schedule_type = ScheduleType.custom ∧ custom_days ≠ "" then
    match parseCustomDays custom_days with
    | none => .rejectedBadDays
    | some days =>
        if ¬ (∀ d ∈ days, 1 ≤ d ∧ d ≤ 7) then .rejectedBadDays
        else if days = [] then .rejectedNoDays
        else if days.length = 7 then .restDayFieldError
        else .accepted
  else .accepted

/-- Outcome of the working-hours section of `WorkScheduleForm.clean`; the
duration branches use `add_error('end_time', ...)`, which also makes
`form.is_valid()` false. -/
inductive FormTimeOutcome where
  | accepted
  | rejectedEndNotAfterStart
  | rejectedDayTooLong
  | rejectedDayTooShort
deriving DecidableEq, Repr

/-- Working-hours section of `WorkScheduleForm.clean`. -/
def form_time_check (start_time end_time : Nat) : FormTimeOutcome :=
  if end_time ≤ start_time then .rejectedEndNotAfterStart
  else
    let work_minutes := end_time - start_time
    if work_minutes > 720 then .rejectedDayTooLong
    else if work_minutes < 60 then .rejectedDayTooShort
    else .accepted

/-- Queryset filter of `get_master_schedule_for_date`: active, started on or
before the date, and `end_date` NULL or on/after the date. -/
def schedule_filter (master : Nat) (d : Date) (s : WorkSchedule) : Bool :=
  decide (s.master = master) && s.is_active && decide (s.start_date ≤ d) &&
  (match s.end_date with | none => true | some e => decide (e ≥ d))

/-- The `for` loop of `get_master_schedule_for_date`: first schedule in the
queryset for which `is_working_day` holds. -/
def first_working_schedule (d : Date) : List WorkSchedule → Option WorkSchedule
  | [] => none
  | s :: rest =>
      if is_working_day s d then some s else first_working_schedule d rest

/-- `get_master_schedule_for_date` (src/core/models.py). -/
def get_master_schedule_for_date (db : List WorkSchedule) (master : Nat)
    (d : Date) : Option WorkSchedule :=
  first_working_schedule d (db.filter (schedule_filter master d))

/-- `is_master_working_at_datetime` (src/core/models.py). -/
def is_master_working_at_datetime (db : List WorkSchedule) (master : Nat)
    (d : Date) (t : Nat) : Bool :=
  match get_master_schedule_for_date db master d with
  | none => false
  | some s => is_working_at_time s d t

/-- `Order.STATUS_CHOICES`. -/
inductive OrderStatus where
  | pending
  | confirmed
  | in_progress
  | completed
  | cancelled
deriving DecidableEq, Repr

/-- The `Order` fields used by the assignment conflict scan; `preferred_time`
is minutes since midnight, `estimated_duration` in minutes
(`PositiveIntegerField`, may be unset on legacy rows → `Option`). -/
structure Order where
  id : Nat
  assigned_master : Option Nat
  status : OrderStatus
  preferred_date : Date
  preferred_time : Nat
  estimated_duration : Option Nat
deriving DecidableEq, Repr

/-- `order.estimated_duration or 60`: Python `or` falls back to 60 both when
the field is None and when it is 0. -/
def order_effective_duration (o : Order) : Nat :=
  match o.estimated_duration with
  | none => 60
  | some n => if n = 0 then 60 else n

/-- Queryset of the assignment view: the master's other confirmed or
in-progress orders on the candidate's preferred date. -/
def order_conflict_filter (master : Nat) (candidate : Order) (o : Order) : Bool :=
  decide (o.assigned_master = some master) &&
  decide (o.preferred_date = candidate.preferred_date) &&
  (decide (o.status = OrderStatus.confirmed) || decide (o.status = OrderStatus.in_progress)) &&
  !(decide (o.id = candidate.id))

/-- The view's per-order test `order_start < conflict_end and
order_end > conflict_start`, with ends at `start + duration` minutes. -/
def orders_time_conflict (a b : Order) : Bool :=
  decide (a.preferred_time < b.preferred_time + order_effective_duration b) &&
  decide (a.preferred_time + order_effective_duration a > b.preferred_time)

/-- The assignment view's conflict scan: the first conflicting order (whose
id and time range the error message reports), `none` when the assignment
passes. `db` stands for the Order table. -/
def find_order_conflict (master : Nat) (candidate : Order) (db : List Order) :
    Option Order :=
  (db.filter (order_conflict_filter master candidate)).find?
    (fun o => orders_time_conflict candidate o)


/-! ## Theorems -/

/-- C3 (corrected): the Day-Pattern Resolver returns {1,2,3,4,5} for weekly
and {1,2,3,4,5,6,7} for monthly; for custom with a non-empty `customDays` it
returns the parsed comma-separated trimmed integers, and a parse failure
(a non-numeric entry) yields the empty list. Out-of-range numeric entries
are NOT emptied — they stay in the returned list (see the counterexample). -/
theorem get_working_days_spec (s : WorkSchedule) :
    (s.schedule_type = ScheduleType.weekly → get_working_days s = [1, 2, 3, 4, 5]) ∧
    (s.schedule_type = ScheduleType.monthly → get_working_days s = [1, 2, 3, 4, 5, 6, 7]) ∧
    (s.schedule_type = ScheduleType.custom → s.custom_days ≠ "" →
      (parseCustomDays s.custom_days = none → get_working_days s = []) ∧
      (∀ ds, parseCustomDays s.custom_days = some ds → get_working_days s = ds)) := by
  refine ⟨fun h => ?_, fun h => ?_, fun h hne => ⟨fun hp => ?_, fun ds hp => ?_⟩⟩
  · simp [get_working_days, h]
  · simp [get_working_days, h]
  · simp [get_working_days, h, hne, hp]
  · simp [get_working_days, h, hne, hp]

/-- C3 counterexample: the claim says an entry outside the range 1..7 makes
the result the empty set, but `customDays = "8"` parses fine and
`get_working_days` returns `[8]`, not `[]`. -/
theorem get_working_days_spec_counterexample :
    get_working_days ⟨none, 1, ScheduleType.custom, 0, none, "8", 540, 1080, true⟩ = [8] ∧
    get_working_days ⟨none, 1, ScheduleType.custom, 0, none, "8", 540, 1080, true⟩ ≠ [] := by
  decide

/-- C3 witness: `"1,3,5"` resolves to [1,3,5]; the non-numeric `"x,3"`
resolves to the empty list. -/
theorem get_working_days_spec_witness :
    parseCustomDays "1,3,5" = some [1, 3, 5] ∧
    get_working_days ⟨none, 1, ScheduleType.custom, 0, none, "1,3,5", 540, 1080, true⟩ = [1, 3, 5] ∧
    get_working_days ⟨none, 1, ScheduleType.custom, 0, none, "x,3", 540, 1080, true⟩ = [] :=
  ⟨by decide,
   ((get_working_days_spec _).2.2 rfl (by decide)).2 [1, 3, 5] (by decide),
   ((get_working_days_spec _).2.2 rfl (by decide)).1 (by decide)⟩

/-- C5 (confirmed): `is_working_at_time` holds exactly when the schedule is
active, the date is on/after `start_date`, on/before `end_date` when set,
the date's ISO weekday is among the resolved working days, and
`start_time ≤ t ≤ end_time` with both bounds inclusive. -/
theorem is_working_at_time_spec (s : WorkSchedule) (d : Date) (t : Nat) :
    is_working_at_time s d t = true ↔
      (s.is_active = true ∧ s.start_date ≤ d ∧ (∀ e, s.end_date = some e → d ≤ e) ∧
       isoweekday d ∈ get_working_days s ∧ s.start_time ≤ t ∧ t ≤ s.end_time) := by
  cases he : s.end_date with
  | none =>
      simp [is_working_at_time, is_working_day, he, not_lt]
      tauto
  | some e =>
      simp [is_working_at_time, is_working_day, he, not_lt]
      tauto

/-- C5 witness: with a 09:00-18:00 window the predicate is true at exactly
09:00 (540) and 18:00 (1080) and false at 08:59 and 18:01, on a Monday
inside the validity period. -/
theorem is_working_at_time_spec_witness :
    is_working_at_time ⟨none, 1, ScheduleType.weekly, 0, none, "", 540, 1080, true⟩ 7 540 = true ∧
    is_working_at_time ⟨none, 1, ScheduleType.weekly, 0, none, "", 540, 1080, true⟩ 7 1080 = true ∧
    is_working_at_time ⟨none, 1, ScheduleType.weekly, 0, none, "", 540, 1080, true⟩ 7 539 = false ∧
    is_working_at_time ⟨none, 1, ScheduleType.weekly, 0, none, "", 540, 1080, true⟩ 7 1081 = false := by
  refine ⟨(is_working_at_time_spec _ 7 540).mpr ⟨rfl, by decide, by decide, by decide, by decide, by decide⟩,
          (is_working_at_time_spec _ 7 1080).mpr ⟨rfl, by decide, by decide, by decide, by decide, by decide⟩,
          ?_, ?_⟩
  · by_contra h
    rw [Bool.not_eq_false] at h
    exact absurd ((is_working_at_time_spec _ 7 539).mp h) (by decide)
  · by_contra h
    rw [Bool.not_eq_false] at h
    exact absurd ((is_working_at_time_spec _ 7 1081).mp h) (by decide)

theorem periods_overlap_iff (s o : WorkSchedule) :
    periods_overlap s o = true ↔
      (match s.end_date, o.end_date with
       | none, _ => s.start_date ≤ o.start_date
       | some _, none => s.start_date ≤ o.start_date
       | some se, some oe => ¬ (se < o.start_date ∨ oe < s.start_date)) := by
  unfold periods_overlap
  cases s.end_date <;> cases o.end_date <;> simp [not_or, ge_iff_le]

theorem days_overlap_iff (s o : WorkSchedule) :
    days_overlap s o = true ↔ ∃ w, w ∈ get_working_days s ∧ w ∈ get_working_days o := by
  simp [days_overlap, List.any_eq_true, List.elem_iff, List.contains]

theorem time_overlap_iff (s o : WorkSchedule) :
    time_overlap s o = true ↔ ¬ (s.end_time ≤ o.start_time ∨ o.end_time ≤ s.start_time) := by
  simp [time_overlap, not_or]

/-- C4 (confirmed): `get_conflicts` reports another schedule of the same
master exactly when all three dimensions hold simultaneously — the period
check of `_periods_overlap`, a non-empty weekday intersection, and the time
window overlap `not (thisEnd <= otherStart or otherEnd <= thisStart)`. -/
theorem get_conflicts_spec (s o : WorkSchedule) (db : List WorkSchedule) :
    o ∈ get_conflicts s db ↔
      (o ∈ db ∧ o.master = s.master ∧ o.is_active = true ∧
       pkFilterMatches s.pk o.pk = false ∧
       (match s.end_date, o.end_date with
        | none, _ => s.start_date ≤ o.start_date
        | some _, none => s.start_date ≤ o.start_date
        | some se, some oe => ¬ (se < o.start_date ∨ oe < s.start_date)) ∧
       (∃ w, w ∈ get_working_days s ∧ w ∈ get_working_days o) ∧
       ¬ (s.end_time ≤ o.start_time ∨ o.end_time ≤ s.start_time)) := by
  simp only [get_conflicts, List.mem_filter, Bool.and_eq_true, decide_eq_true_eq,
    Bool.not_eq_true', periods_overlap_iff, days_overlap_iff, time_overlap_iff]
  tauto

/-- C4 witness, the spec's scenario 2: candidate B (custom days "3,5",
period [31,90], 12:00-16:00) conflicts with existing A (custom days "1,3,5",
period [0,59], 09:00-13:00): periods, weekdays {3,5} and times 12:00-13:00
all overlap. -/
theorem get_conflicts_spec_witness :
    ⟨some 1, 5, ScheduleType.custom, 0, some 59, "1,3,5", 540, 780, true⟩ ∈
      get_conflicts ⟨none, 5, ScheduleType.custom, 31, some 90, "3,5", 720, 960, true⟩
        [⟨some 1, 5, ScheduleType.custom, 0, some 59, "1,3,5", 540, 780, true⟩] :=
  (get_conflicts_spec _ _ _).mpr
    ⟨by decide, rfl, rfl, by decide, by decide, ⟨3, by decide, by decide⟩, by decide⟩

/-- C2 (code_bug): the schedule-conflict relation is not symmetric. With
A = weekly, start day 0, open-ended, and B = weekly, days [31,59], same
master and hours, `get_conflicts A [B]` is non-empty but
`get_conflicts B [A]` is empty — although the two schedules genuinely
overlap (both are working on day 35 at 10:00). `_periods_overlap(B, A)`
returns `B.start_date <= A.start_date` when `A.end_date` is NULL, which is
false here despite the real period intersection. -/
theorem schedule_conflict_asymmetry_bug :
    (get_conflicts ⟨some 1, 10, ScheduleType.weekly, 0, none, "", 540, 1080, true⟩
        [⟨some 2, 10, ScheduleType.weekly, 31, some 59, "", 540, 1080, true⟩] ≠ [] ∧
     get_conflicts ⟨some 2, 10, ScheduleType.weekly, 31, some 59, "", 540, 1080, true⟩
        [⟨some 1, 10, ScheduleType.weekly, 0, none, "", 540, 1080, true⟩] = []) ∧
    is_working_at_time ⟨some 1, 10, ScheduleType.weekly, 0, none, "", 540, 1080, true⟩ 35 600 = true ∧
    is_working_at_time ⟨some 2, 10, ScheduleType.weekly, 31, some 59, "", 540, 1080, true⟩ 35 600 = true := by
  decide

/-- C8 (confirmed): given `start_time < end_time`, both the model clean and
the form reject exactly when the daily duration is under 1 hour or over 12
hours; the bounds are inclusive, so 12 hours passes and 12h01m fails. -/
theorem duration_validation_spec (s : WorkSchedule)
    (h : s.start_time < s.end_time) :
    (clean_time_check s ≠ .ok () ↔
      (s.end_time - s.start_time < 60 ∨ 720 < s.end_time - s.start_time)) ∧
    (form_time_check s.start_time s.end_time ≠ .accepted ↔
      (s.end_time - s.start_time < 60 ∨ 720 < s.end_time - s.start_time)) := by
  unfold clean_time_check form_time_check
  constructor
  · rw [if_neg (by omega)]
    simp only []
    split
    · simp; omega
    · split <;> simp <;> omega
  · rw [if_neg (by omega)]
    simp only []
    split
    · simp; omega
    · split <;> simp <;> omega

/-- C8 witness: 10:00-22:00 (exactly 12 hours) passes the model check;
10:00-22:01 fails the form check. -/
theorem duration_validation_spec_witness :
    clean_time_check ⟨none, 1, ScheduleType.weekly, 0, none, "", 600, 1320, true⟩ = .ok () ∧
    form_time_check 600 1321 ≠ .accepted := by
  constructor
  · by_contra hne
    exact absurd ((duration_validation_spec _ (by decide)).1.mp hne) (by decide)
  · exact (duration_validation_spec
      ⟨none, 1, ScheduleType.weekly, 0, none, "", 600, 1321, true⟩ (by decide)).2.mpr (by decide)

/-- C9 counterexample: validation does not require `customDays` to be
non-empty — an empty string skips the check in both the model and the form —
and the full seven-day list "1,2,3,4,5,6,7" is not merely warned about: the
form records a `custom_days` field error (making `form.is_valid()` false, a
blocking rejection), while the model clean passes it with no warning at all. -/
theorem custom_days_validation_counterexample :
    clean_custom_days_check ⟨none, 1, ScheduleType.custom, 10, some 40, "", 540, 1080, true⟩ = .ok () ∧
    form_custom_days_check ScheduleType.custom "" = .accepted ∧
    form_custom_days_check ScheduleType.custom "1,2,3,4,5,6,7" = .restDayFieldError ∧
    clean_custom_days_check ⟨none, 1, ScheduleType.custom, 10, some 40, "1,2,3,4,5,6,7", 540, 1080, true⟩ = .ok () :=
  ⟨rfl, rfl, rfl, rfl⟩

/-- C9 (corrected): for custom schedules the customDays check is skipped
entirely when the string is empty; when non-empty, a non-numeric entry or a
value outside 1..7 is rejected by both the model and the form; a 7-entry
list passes the model's clean but receives the form's rest-day field error,
which blocks the form rather than warning. -/
theorem custom_days_validation_amended (s : WorkSchedule)
    (hc : s.schedule_type = ScheduleType.custom) :
    (s.custom_days = "" →
      clean_custom_days_check s = .ok () ∧
      form_custom_days_check s.schedule_type s.custom_days = .accepted) ∧
    (s.custom_days ≠ "" → parseCustomDays s.custom_days = none →
      clean_custom_days_check s = .error .customDaysNotNumbers ∧
      form_custom_days_check s.schedule_type s.custom_days = .rejectedBadDays) ∧
    (∀ ds, s.custom_days ≠ "" → parseCustomDays s.custom_days = some ds →
      ((¬ ∀ d ∈ ds, 1 ≤ d ∧ d ≤ 7) →
        clean_custom_days_check s = .error .badCustomDayRange ∧
        form_custom_days_check s.schedule_type s.custom_days = .rejectedBadDays) ∧
      ((∀ d ∈ ds, 1 ≤ d ∧ d ≤ 7) → ds ≠ [] → ds.length = 7 →
        clean_custom_days_check s = .ok () ∧
        form_custom_days_check s.schedule_type s.custom_days = .restDayFieldError)) := by
  unfold clean_custom_days_check form_custom_days_check
  refine ⟨fun he => ?_, fun hne hp => ?_, fun ds hne hp => ⟨fun hbad => ?_, fun hok hnil hlen => ?_⟩⟩
  · simp [he]
  · simp [hc, hne, hp]
  · simp [hc, hne, hp, hbad]
  · simp [hc, hne, hp, hnil, hlen]
    all_goals exact hok

/-- C9 witness: the amended behavior at "1,2,3,4,5,6,7" — model clean ok,
form blocked by the rest-day field error. -/
theorem custom_days_validation_amended_witness :
    clean_custom_days_check ⟨none, 1, ScheduleType.custom, 10, some 40, "1,2,3,4,5,6,7", 540, 1080, true⟩ = .ok () ∧
    form_custom_days_check ScheduleType.custom "1,2,3,4,5,6,7" = .restDayFieldError :=
  ((custom_days_validation_amended
      ⟨none, 1, ScheduleType.custom, 10, some 40, "1,2,3,4,5,6,7", 540, 1080, true⟩ rfl).2.2
    [1, 2, 3, 4, 5, 6, 7] (by decide) (by decide)).2 (by decide) (by decide) rfl

/-- C10 (confirmed): a custom schedule with an empty `customDays` resolves
to all seven weekdays (the default branch, same as monthly), the custom-days
validation accepts it, and the model's `clean` as a whole adds no rejection
on account of it — when the other blocks pass, `clean` returns ok. -/
theorem empty_custom_days_spec (s : WorkSchedule) (db : List WorkSchedule) (today : Date)
    (hc : s.schedule_type = ScheduleType.custom) (he : s.custom_days = "") :
    get_working_days s = [1, 2, 3, 4, 5, 6, 7] ∧
    clean_custom_days_check s = .ok () ∧
    (clean_time_check s = .ok () → clean_date_check s = .ok () →
     clean_past_check s today = .ok () → clean_overlap_check s db today = .ok () →
     clean s db today = .ok ()) := by
  refine ⟨?_, ?_, fun h1 h2 h3 h4 => ?_⟩
  · simp [get_working_days, hc, he]
  · simp [clean_custom_days_check, he]
  · simp [clean, h1, h2, h3, h4, clean_custom_days_check, he]
    rfl

/-- C10 witness: a concrete custom schedule with empty `customDays` works
all seven days and passes the model's full `clean`. -/
theorem empty_custom_days_spec_witness :
    get_working_days ⟨none, 1, ScheduleType.custom, 10, some 40, "", 540, 1080, true⟩ = [1, 2, 3, 4, 5, 6, 7] ∧
    clean ⟨none, 1, ScheduleType.custom, 10, some 40, "", 540, 1080, true⟩ [] 5 = .ok () := by
  have h := empty_custom_days_spec ⟨none, 1, ScheduleType.custom, 10, some 40, "", 540, 1080, true⟩ [] 5 rfl rfl
  exact ⟨h.1, h.2.2 rfl rfl rfl rfl⟩


theorem overlap_qs_filter_iff (s o : WorkSchedule) (today : Date) :
    overlap_qs_filter s today o = true ↔
      (o.master = s.master ∧ o.is_active = true ∧
       o.start_date ≤ (match s.end_date with | some e => e | none => today + 365) ∧
       (∃ oe, o.end_date = some oe ∧ s.start_date ≤ oe) ∧
       (∀ p, s.pk = some p → ¬ o.pk = some p)) := by
  unfold overlap_qs_filter
  cases hpk : s.pk <;> cases hoe : o.end_date <;>
    simp [hpk, hoe, pkFilterMatches, ge_iff_le, and_assoc]

/-- C1 counterexample: the model's clean is a period-only check, not the
three-dimensional one the claim states. Left half: an existing open-ended
active schedule overlaps a candidate in all three dimensions (both are
working on day 14 at 10:00; period, weekday and time overlaps all hold),
yet `clean` accepts the candidate, because the queryset's
`end_date__gte` filter never matches a NULL `end_date`. Right half: a
candidate whose weekday set and time window are both disjoint from the
existing schedule's is still rejected, with the existing schedule's date
range, because only periods are compared. -/
theorem active_overlap_check_counterexample :
    (is_working_at_time ⟨none, 1, ScheduleType.weekly, 10, some 40, "", 540, 1080, true⟩ 14 600 = true ∧
     is_working_at_time ⟨some 1, 1, ScheduleType.weekly, 0, none, "", 540, 1080, true⟩ 14 600 = true ∧
     periods_overlap ⟨some 1, 1, ScheduleType.weekly, 0, none, "", 540, 1080, true⟩
       ⟨none, 1, ScheduleType.weekly, 10, some 40, "", 540, 1080, true⟩ = true ∧
     days_overlap ⟨none, 1, ScheduleType.weekly, 10, some 40, "", 540, 1080, true⟩
       ⟨some 1, 1, ScheduleType.weekly, 0, none, "", 540, 1080, true⟩ = true ∧
     time_overlap ⟨none, 1, ScheduleType.weekly, 10, some 40, "", 540, 1080, true⟩
       ⟨some 1, 1, ScheduleType.weekly, 0, none, "", 540, 1080, true⟩ = true ∧
     clean ⟨none, 1, ScheduleType.weekly, 10, some 40, "", 540, 1080, true⟩
       [⟨some 1, 1, ScheduleType.weekly, 0, none, "", 540, 1080, true⟩] 5 = .ok ()) ∧
    (days_overlap ⟨none, 1, ScheduleType.custom, 10, some 40, "1", 540, 660, true⟩
       ⟨some 1, 1, ScheduleType.custom, 0, some 59, "2", 700, 800, true⟩ = false ∧
     time_overlap ⟨none, 1, ScheduleType.custom, 10, some 40, "1", 540, 660, true⟩
       ⟨some 1, 1, ScheduleType.custom, 0, some 59, "2", 700, 800, true⟩ = false ∧
     clean_overlap_check ⟨none, 1, ScheduleType.custom, 10, some 40, "1", 540, 660, true⟩
       [⟨some 1, 1, ScheduleType.custom, 0, some 59, "2", 700, 800, true⟩] 5
         = .error (.activeOverlap 0 (some 59))) :=
  ⟨⟨by decide, by decide, by decide, by decide, by decide, rfl⟩, by decide, by decide, rfl⟩

/-- C1 (corrected): the model's active-overlap validation rejects an active
candidate exactly when some schedule in the table belongs to the same
master, is active, starts on or before the candidate's end date (or
today+365 when the candidate is open-ended), has a NON-NULL end date on or
after the candidate's start date, and is not the candidate's own row —
weekday sets and time windows are never consulted, and existing open-ended
schedules never trigger the rejection. When it rejects, the reported date
range is that of a schedule in the table satisfying those conditions. -/
theorem active_overlap_check_amended (s : WorkSchedule) (db : List WorkSchedule)
    (today : Date) (ha : s.is_active = true) :
    (clean_overlap_check s db today = .ok () ↔
      ∀ o ∈ db, ¬ (o.master = s.master ∧ o.is_active = true ∧
        o.start_date ≤ (match s.end_date with | some e => e | none => today + 365) ∧
        (∃ oe, o.end_date = some oe ∧ s.start_date ≤ oe) ∧
        (∀ p, s.pk = some p → ¬ o.pk = some p))) ∧
    (∀ cs ce, clean_overlap_check s db today = .error (.activeOverlap cs ce) →
      ∃ o ∈ db, o.start_date = cs ∧ o.end_date = ce ∧ o.master = s.master ∧
        o.is_active = true ∧ (∃ oe, o.end_date = some oe ∧ s.start_date ≤ oe)) := by
  unfold clean_overlap_check
  rw [if_pos ha]
  cases hf : db.filter (overlap_qs_filter s today) with
  | nil =>
      refine ⟨iff_of_true rfl fun o ho hP =>
        List.filter_eq_nil_iff.mp hf o ho ((overlap_qs_filter_iff s o today).mpr hP), ?_⟩
      intro cs ce herr
      exact absurd herr (by simp)
  | cons c rest =>
      have hcmem : c ∈ db.filter (overlap_qs_filter s today) := by
        rw [hf]; exact List.mem_cons_self c rest
      have hcdb : c ∈ db := (List.mem_filter.mp hcmem).1
      have hcp := (overlap_qs_filter_iff s c today).mp (List.mem_filter.mp hcmem).2
      refine ⟨iff_of_false (by simp) fun hall => hall c hcdb hcp, ?_⟩
      intro cs ce herr
      have h1 : c.start_date = cs ∧ c.end_date = ce := by simpa using herr
      exact ⟨c, hcdb, h1.1, h1.2, hcp.1, hcp.2.1, hcp.2.2.2.1⟩

/-- C1 witness: a concrete active candidate is rejected although its weekday
and time dimensions were never examined. -/
theorem active_overlap_check_amended_witness :
    clean_overlap_check ⟨none, 1, ScheduleType.weekly, 10, some 40, "", 540, 1080, true⟩
      [⟨some 1, 1, ScheduleType.weekly, 0, some 59, "", 540, 1080, true⟩] 5 ≠ .ok () := by
  intro hok
  exact ((active_overlap_check_amended _ _ 5 rfl).1.mp hok)
    ⟨some 1, 1, ScheduleType.weekly, 0, some 59, "", 540, 1080, true⟩
    (List.mem_singleton.mpr rfl)
    ⟨rfl, rfl, by decide, ⟨59, rfl, by decide⟩, fun p h => Option.noConfusion h⟩

theorem first_working_eq_find (d : Date) (l : List WorkSchedule) :
    first_working_schedule d l = l.find? (fun s => is_working_day s d) := by
  induction l with
  | nil => rfl
  | cons s rest ih =>
      unfold first_working_schedule
      by_cases h : is_working_day s d = true
      · rw [if_pos h]
        simp [List.find?, h]
      · have hfalse : is_working_day s d = false := by simpa using h
        rw [if_neg h]
        simp [List.find?, hfalse, ih]

/-- C6 (confirmed): `get_master_schedule_for_date` is the first schedule of
the filtered set (active, `start_date <= date`, `end_date` NULL or
`>= date`) for which `is_working_day` holds — equivalently `find?` over the
filter — and `is_master_working_at_datetime` short-circuits to false when
no schedule is found and otherwise applies the time predicate to the found
schedule. -/
theorem schedule_lookup_spec (db : List WorkSchedule) (m : Nat) (d : Date) (t : Nat) :
    get_master_schedule_for_date db m d
      = (db.filter (schedule_filter m d)).find? (fun s => is_working_day s d) ∧
    (get_master_schedule_for_date db m d = none →
      is_master_working_at_datetime db m d t = false) ∧
    (∀ s, get_master_schedule_for_date db m d = some s →
      s ∈ db ∧ s.master = m ∧ s.is_active = true ∧ s.start_date ≤ d ∧
      (∀ e, s.end_date = some e → d ≤ e) ∧ is_working_day s d = true ∧
      is_master_working_at_datetime db m d t = is_working_at_time s d t) := by
  refine ⟨first_working_eq_find d _, fun hn => ?_, fun s hs => ?_⟩
  · simp [is_master_working_at_datetime, hn]
  · have hfind : (db.filter (schedule_filter m d)).find? (fun s => is_working_day s d) = some s := by
      rw [← first_working_eq_find]; exact hs
    have hmem := List.mem_filter.mp (List.mem_of_find?_eq_some hfind)
    have hwork := List.find?_some hfind
    have hflt := hmem.2
    unfold schedule_filter at hflt
    simp only [Bool.and_eq_true, decide_eq_true_eq] at hflt
    refine ⟨hmem.1, hflt.1.1.1, hflt.1.1.2, hflt.1.2, ?_, hwork, ?_⟩
    · intro e he
      have h2 := hflt.2
      rw [he] at h2
      simpa [ge_iff_le] using h2
    · simp [is_master_working_at_datetime, hs]

/-- C6 witness, the spec's scenario 1: one active weekly schedule starting
day 0 (a Monday), open-ended, 09:00-18:00, and the master's availability on
Monday day 0 at 10:00 equals the schedule's own time predicate there. -/
theorem schedule_lookup_spec_witness :
    is_master_working_at_datetime [⟨some 1, 7, ScheduleType.weekly, 0, none, "", 540, 1080, true⟩] 7 0 600
      = is_working_at_time ⟨some 1, 7, ScheduleType.weekly, 0, none, "", 540, 1080, true⟩ 0 600 :=
  ((schedule_lookup_spec _ 7 0 600).2.2 _ (by decide)).2.2.2.2.2.2

theorem order_effective_duration_pos (o : Order) : 0 < order_effective_duration o := by
  unfold order_effective_duration
  cases o.estimated_duration with
  | none => decide
  | some n =>
      by_cases h : n = 0
      · simp [h]
      · simp [h]
        omega

/-- C7 (confirmed): each order occupies the half-open interval
`[preferredTime, preferredTime + effectiveDuration)` (60 minutes when the
duration is unset), the view's test `start < otherEnd and end > otherStart`
holds exactly when the two half-open intervals share a minute — so
back-to-back orders do not conflict — and the scan reports an order from
the table satisfying the confirmed/in-progress same-date filter whose
interval intersects the candidate's. -/
theorem order_conflict_spec (m : Nat) (c : Order) (db : List Order) (a b : Order) :
    (orders_time_conflict a b = true ↔
      ∃ t : Nat, (a.preferred_time ≤ t ∧ t < a.preferred_time + order_effective_duration a) ∧
                 (b.preferred_time ≤ t ∧ t < b.preferred_time + order_effective_duration b)) ∧
    (∀ o, find_order_conflict m c db = some o →
      o ∈ db ∧ o.assigned_master = some m ∧ o.preferred_date = c.preferred_date ∧
      (o.status = OrderStatus.confirmed ∨ o.status = OrderStatus.in_progress) ∧ o.id ≠ c.id ∧
      orders_time_conflict c o = true) ∧
    (find_order_conflict m c db = none ↔
      ∀ o ∈ db, order_conflict_filter m c o = true → orders_time_conflict c o = false) := by
  have hda := order_effective_duration_pos a
  have hdb := order_effective_duration_pos b
  refine ⟨?_, fun o ho => ?_, ?_⟩
  · unfold orders_time_conflict
    simp only [Bool.and_eq_true, decide_eq_true_eq]
    constructor
    · rintro ⟨h1, h2⟩
      rcases le_total a.preferred_time b.preferred_time with hle | hle
      · exact ⟨b.preferred_time, ⟨hle, by omega⟩, le_refl _, by omega⟩
      · exact ⟨a.preferred_time, ⟨le_refl _, by omega⟩, hle, by omega⟩
    · rintro ⟨t, ⟨ha1, ha2⟩, hb1, hb2⟩
      omega
  · unfold find_order_conflict at ho
    have hmem := List.mem_filter.mp (List.mem_of_find?_eq_some ho)
    have hconf := List.find?_some ho
    have hflt := hmem.2
    unfold order_conflict_filter at hflt
    simp only [Bool.and_eq_true, Bool.or_eq_true, decide_eq_true_eq,
      Bool.not_eq_true', decide_eq_false_iff_not] at hflt
    exact ⟨hmem.1, hflt.1.1.1, hflt.1.1.2, hflt.1.2, hflt.2, hconf⟩
  · unfold find_order_conflict
    rw [List.find?_eq_none]
    constructor
    · intro h o ho hf
      have := h o (List.mem_filter.mpr ⟨ho, hf⟩)
      simpa using this
    · intro h o hmem
      have hm := List.mem_filter.mp hmem
      simp [h o hm.1 hm.2]

/-- C7 witness, the spec's scenario 3: O1 confirmed at 10:00 for 60 min;
a candidate at 10:30 (60 min) conflicts and the scan returns O1; a
candidate at 11:00 (30 min) is back-to-back and the scan returns none. -/
theorem order_conflict_spec_witness :
    orders_time_conflict ⟨2, none, OrderStatus.pending, 100, 630, some 60⟩
      ⟨1, some 9, OrderStatus.confirmed, 100, 600, some 60⟩ = true ∧
    find_order_conflict 9 ⟨2, none, OrderStatus.pending, 100, 630, some 60⟩
      [⟨1, some 9, OrderStatus.confirmed, 100, 600, some 60⟩]
        = some ⟨1, some 9, OrderStatus.confirmed, 100, 600, some 60⟩ ∧
    find_order_conflict 9 ⟨3, none, OrderStatus.pending, 100, 660, some 30⟩
      [⟨1, some 9, OrderStatus.confirmed, 100, 600, some 60⟩] = none := by
  refine ⟨(order_conflict_spec 9 ⟨2, none, OrderStatus.pending, 100, 630, some 60⟩ []
      ⟨2, none, OrderStatus.pending, 100, 630, some 60⟩
      ⟨1, some 9, OrderStatus.confirmed, 100, 600, some 60⟩).1.mpr
        ⟨630, by decide, by decide⟩,
    by decide,
    (order_conflict_spec 9 ⟨3, none, OrderStatus.pending, 100, 660, some 30⟩
      [⟨1, some 9, OrderStatus.confirmed, 100, 600, some 60⟩]
      ⟨3, none, OrderStatus.pending, 100, 660, some 30⟩
      ⟨3, none, OrderStatus.pending, 100, 660, some 30⟩).2.2.mpr ?_⟩
  intro o ho hf
  rw [List.mem_singleton] at ho
  subst ho
  decide

end Diploma
